import Mathlib

/-!
Verification of the payment-ledger subsystem of DimaTechTestTask.

Shallow embedding of:
  * `src/database/models.py`   — the persisted data model (User, Account, Payment);
  * `src/services/dals.py`     — the data-access layer (UserDAL, AccountDAL, PaymentDAL);
  * `src/services/hashing.py`  — `verify_signature` and the spec's reference
    signature algorithm (sort keys, concatenate, append secret, SHA-256, hex);
  * `src/services/services.py` — `PaymentService.process_payment`,
    `_check_user`, `_check_account`, `_check_payment`, `get_payments`.

Modelling conventions:
  * Python `int` identifiers are `Int`; `float` amounts are `Rat` (exact
    arithmetic; no claim under consideration depends on binary floating-point
    rounding, only on the additive balance law).
  * `UUID` transaction identifiers are `String` (their canonical text form).
  * Each DAL method opens its own `async with self.db_session.begin()` block:
    it commits its effect on normal exit and rolls back on an exception.
    Accordingly every DAL operation is a pure function from the database state
    to a new state (its committed effect), and an operation that raises leaves
    the state unchanged.  A service method calling several DAL methods in
    sequence therefore commits each step separately: an exception in a later
    step does not undo an earlier step's commit.
  * Python exceptions are values of `PyErr`; a service call returns the final
    committed database state together with the exception it raised, if any.
  * Python call semantics for keyword arguments are modelled explicitly where
    the claims depend on them: a required parameter left unbound by the caller
    raises `TypeError` before the callee's body runs, and the SQLAlchemy
    declarative constructor raises `TypeError` for a keyword that is not a
    mapped attribute of the model.
-/

namespace DimaTech

/-- Exceptions raised by the service layer.  `services.py` raises
`ValueError` for not-found / validation / duplicate conditions and
`PermissionError` for admin payers; the Python runtime raises `TypeError`
for a bad call. -/
inductive PyErr where
  | valueError (msg : String)
  | permissionError (msg : String)
  | typeError (msg : String)
deriving Repr, DecidableEq

/-- Embeds `models.User` (models.py:16-39).  Only the columns the payment core
reads are modelled: `user_id` and `is_admin`. -/
structure User where
  user_id : Int
  is_admin : Bool
deriving Repr, DecidableEq

/-- Embeds `models.Account` (models.py:42-63): `account_id` primary key,
`balance` with column default `0`, `user_id` foreign key to `user`. -/
structure Account where
  account_id : Int
  balance : Rat
  user_id : Int
deriving Repr, DecidableEq

/-- Embeds `models.Payment` (models.py:66-87): `transaction_id` (unique),
`amount`, `account_id` foreign key, `signature`.  The autogenerated
surrogate key `payment_id` carries no information used by any claim and is
omitted.  Note the model has NO `user_id` column. -/
structure Payment where
  transaction_id : String
  amount : Rat
  account_id : Int
  signature : String
deriving Repr, DecidableEq

/-- Keyword names accepted by the `Payment` declarative constructor: the
mapped column attributes of `models.Payment` (models.py:79-87).
(The relationship attribute `account` is also accepted by SQLAlchemy but is
never passed here; listing the columns suffices for the call in question.) -/
def paymentModelColumns : List String :=
  ["payment_id", "transaction_id", "amount", "account_id", "signature"]

/-- The persisted store: the three tables. -/
structure DB where
  users : List User
  accounts : List Account
  payments : List Payment
deriving Repr, DecidableEq

/-! ### Python values and truthiness, for `hashing.verify_signature` -/

/-- The values that appear in the `data` dict handed to
`hashing.verify_signature` (and, degenerately, the `False` default of
`dict.get`). -/
inductive PyValue where
  | str (s : String)
  | int (i : Int)
  | rat (q : Rat)
  | bool (b : Bool)
deriving Repr, DecidableEq

/-- Python truthiness of a `PyValue` (`bool(v)`): empty string, zero and
`False` are falsy. -/
def PyValue.truthy : PyValue → Bool
  | .str s => s ≠ ""
  | .int i => i ≠ 0
  | .rat q => q ≠ 0
  | .bool b => b

/-- Python `dict.get(key, default)` on a dict represented as an association list. -/
def dictGet (data : List (String × PyValue)) (key : String) (dflt : PyValue) :
    PyValue :=
  match data.find? (fun kv => kv.1 == key) with
  | some kv => kv.2
  | none => dflt

/-- Embeds `hashing.verify_signature` (hashing.py:23-25):

    received_signature = data.get("signature", False)
    return received_signature

It returns the value stored under `"signature"` (or `False` when absent);
the caller then branches on its truthiness. -/
def verify_signature (data : List (String × PyValue)) : PyValue :=
  dictGet data "signature" (.bool false)

/-! ### DAL operations (dals.py)

Each is the committed effect of one `async with self.db_session.begin()`
block. -/

/-- Embeds `UserDAL.get_user_by_id` (dals.py:33-38): `select(User).filter_by(user_id=…)`,
first result. -/
def get_user_by_id (s : DB) (user_id : Int) : Option User :=
  s.users.find? (fun u => u.user_id == user_id)

/-- Embeds `AccountDAL.get_accounts_by_user_id` (dals.py:74-79):
`select(Account).filter_by(user_id=…)`, all results. -/
def get_accounts_by_user_id (s : DB) (user_id : Int) : List Account :=
  s.accounts.filter (fun a => a.user_id == user_id)

/-- Embeds `AccountDAL.get_account_by_id` (dals.py:81-86):
`select(Account).filter_by(account_id=…)`, first result. -/
def get_account_by_id (s : DB) (account_id : Int) : Option Account :=
  s.accounts.find? (fun a => a.account_id == account_id)

/-- Embeds `AccountDAL.create_account` (dals.py:88-94): constructs
`Account(user_id=…, account_id=…)` — `balance` takes the column default `0`
at flush (models.py:58) — adds it to the session and flushes; the
surrounding `begin()` block commits.  Returns the new account and the new
state. -/
def create_account (s : DB) (account_id user_id : Int) : Account × DB :=
  let account : Account := { account_id := account_id, balance := 0, user_id := user_id }
  (account, { s with accounts := s.accounts ++ [account] })

/-- Embeds `AccountDAL.change_balance` (dals.py:96-98):
`setattr(account, "balance", account.balance + amount)` inside a `begin()`
block — the mapped instance is the identity-mapped row, so the committed
effect sets that row's balance to its previous balance plus `amount`. -/
def change_balance (s : DB) (account : Account) (amount : Rat) : DB :=
  { s with
    accounts := s.accounts.map (fun a =>
      if a.account_id == account.account_id then
        { a with balance := a.balance + amount }
      else a) }

/-- Embeds `PaymentDAL.get_payment` (dals.py:104-109):
`select(Payment).filter_by(transaction_id=…)`, first result. -/
def get_payment (s : DB) (transaction_id : String) : Option Payment :=
  s.payments.find? (fun p => p.transaction_id == transaction_id)

/-- Embeds `PaymentDAL.get_payments_by_account_id` (dals.py:130-137):
`select(Payment).filter_by(account_id=…)`, all results. -/
def get_payments_by_account_id (s : DB) (account_id : Int) : List Payment :=
  s.payments.filter (fun p => p.account_id == account_id)

/-- The parameter list of `PaymentDAL.add_payment_to_database`
(dals.py:111-118): five parameters besides `self`, all required
(no defaults). -/
def addPaymentParams : List String :=
  ["transaction_id", "user_id", "account_id", "amount", "signature"]

/-- The keyword arguments its body passes on to the `Payment` constructor
(dals.py:120-126). -/
def addPaymentBodyKwargs : List String :=
  ["transaction_id", "user_id", "account_id", "amount", "signature"]

/-- Embeds `PaymentDAL.add_payment_to_database` (dals.py:111-128) invoked with the
set `kwargs` of keyword-argument names supplied by the caller.  Python call
semantics: if any required parameter is unbound the call raises `TypeError`
before the body runs.  Otherwise the body constructs
`Payment(transaction_id=…, user_id=…, account_id=…, amount=…, signature=…)`:
the declarative constructor raises `TypeError` for any keyword that is not a
mapped attribute of `Payment` (models.py:79-87 has no `user_id`), and the
`begin()` block rolls back on the exception.  Only if neither `TypeError`
fires is the row added and committed. -/
def add_payment_to_database (s : DB) (kwargs : List String)
    (transaction_id : String) (account_id : Int) (amount : Rat)
    (signature : String) : DB × Option PyErr :=
  if addPaymentParams.all (fun p => kwargs.contains p) then
    if addPaymentBodyKwargs.all (fun k => paymentModelColumns.contains k) then
      ({ s with
          payments := s.payments ++
            [{ transaction_id := transaction_id, amount := amount,
               account_id := account_id, signature := signature }] }, none)
    else
      (s, some (.typeError "invalid keyword argument for Payment"))
  else
    (s, some (.typeError
      "add_payment_to_database() missing 1 required positional argument"))

/-! ### PaymentService (services.py:159-263) -/

/-- Embeds `PaymentService._check_user` (services.py:204-210). -/
def check_user (s : DB) (user_id : Int) : Option PyErr :=
  match get_user_by_id s user_id with
  | none => some (.valueError "User does not exist")
  | some user =>
    if user.is_admin then
      some (.permissionError "Cannot process a payment if the user is an admin")
    else
      none

/-- Embeds `PaymentService._check_account` (services.py:212-220): returns the
account when it exists and belongs to `user_id`, raises when it exists and
does not, and falls through (returning Python `None`) when it is absent. -/
def check_account (s : DB) (account_id user_id : Int) :
    Except PyErr (Option Account) :=
  match get_account_by_id s account_id with
  | some account =>
    if account.user_id ≠ user_id then
      .error (.valueError "Account does not belong to the specified user")
    else
      .ok (some account)
  | none => .ok none

/-- The `data` dict literal built at services.py:237-243. -/
def paymentDataDict (transaction_id : String) (user_id account_id : Int)
    (amount : Rat) (signature : String) : List (String × PyValue) :=
  [("transaction_id", .str transaction_id),
   ("user_id", .int user_id),
   ("account_id", .int account_id),
   ("amount", .rat amount),
   ("signature", .str signature)]

/-- Embeds `PaymentService._check_payment` (services.py:222-245): duplicate check
on `transaction_id` first, then `if not hashing.verify_signature(data=…)`. -/
def check_payment (s : DB) (transaction_id : String) (user_id account_id : Int)
    (amount : Rat) (signature : String) : Option PyErr :=
  match get_payment s transaction_id with
  | some _ => some (.valueError "Transaction with this id already exists")
  | none =>
    if !(verify_signature
        (paymentDataDict transaction_id user_id account_id amount signature)).truthy then
      some (.valueError "Signature is incorrect")
    else
      none

/-- The keyword arguments `process_payment` supplies to
`add_payment_to_database` at services.py:197-202: `user_id` is NOT among
them. -/
def processPaymentInsertKwargs : List String :=
  ["transaction_id", "account_id", "amount", "signature"]

/-- Embeds `PaymentService.process_payment` (services.py:169-202):
`_check_user`; `_check_account`; `_check_payment`; lazily
`create_account` when the account was absent; `change_balance`; then
`add_payment_to_database` with the kwargs of services.py:197-202.
Returns the final committed state and the exception raised, if any. -/
def process_payment (s : DB) (transaction_id : String)
    (user_id account_id : Int) (amount : Rat) (signature : String) :
    DB × Option PyErr :=
  match check_user s user_id with
  | some e => (s, some e)
  | none =>
    match check_account s account_id user_id with
    | .error e => (s, some e)
    | .ok accountOpt =>
      match check_payment s transaction_id user_id account_id amount signature with
      | some e => (s, some e)
      | none =>
        let (account, s1) :=
          match accountOpt with
          | some account => (account, s)
          | none => create_account s account_id user_id
        let s2 := change_balance s1 account amount
        add_payment_to_database s2 processPaymentInsertKwargs
          transaction_id account_id amount signature

/-- Embeds `PaymentService.get_payments` (services.py:247-263): fetch the user's
accounts (the `if not accounts: []` at line 251-252 evaluates a list literal
and discards it — a no-op), then extend an initially empty list with each
account's payments in order. -/
def get_payments (s : DB) (user : User) : List Payment :=
  let accounts := get_accounts_by_user_id s user.user_id
  let payments : List Payment := []
  accounts.foldl
    (fun payments acc => payments ++ get_payments_by_account_id s acc.account_id)
    payments

/-! ### The reference signature algorithm

`hashing._generate_signature` (hashing.py:28-33) — the algorithm the
specification (§4.1) declares authoritative for the Signature Verifier:
drop the `"signature"` entry, sort the remaining keys lexicographically,
concatenate the `str()` of their values in that order, append
`project_settings.SECRET_KEY`, SHA-256 the UTF-8 bytes, hex-encode.
The secret is configuration loaded from the environment (settings.py:17),
so it appears here as a parameter. -/

/-- Python `str()` of the dict values in play.  (`str` on a float is
approximated by the rational's rendering; no theorem below depends on the
rendered text, only on the length of the final hex digest.) -/
def pyStr : PyValue → String
  | .str s => s
  | .int i => toString i
  | .rat q => toString q
  | .bool b => cond b "True" "False"

/-- UTF-8 encoding of one Unicode scalar value, as a list of byte values. -/
def utf8EncodeChar (n : Nat) : List Nat :=
  if n < 0x80 then [n]
  else if n < 0x800 then [0xC0 + n / 64, 0x80 + n % 64]
  else if n < 0x10000 then [0xE0 + n / 4096, 0x80 + n / 64 % 64, 0x80 + n % 64]
  else [0xF0 + n / 262144, 0x80 + n / 4096 % 64, 0x80 + n / 64 % 64, 0x80 + n % 64]

/-- Python `s.encode("utf-8")`: the UTF-8 byte sequence of a string. -/
def strBytes (s : String) : List Nat :=
  s.data.flatMap (fun c => utf8EncodeChar c.toNat)

namespace SHA256

/-- Reduce modulo the 32-bit word size. -/
def wmod (x : Nat) : Nat := x % 2 ^ 32

/-- Right rotation of a 32-bit word. -/
def rotr (x n : Nat) : Nat := wmod (x >>> n ||| x <<< (32 - n))

def ch (x y z : Nat) : Nat := (x &&& y) ^^^ ((x ^^^ 4294967295) &&& z)

def maj (x y z : Nat) : Nat := (x &&& y) ^^^ (x &&& z) ^^^ (y &&& z)

def bigSigma0 (x : Nat) : Nat := rotr x 2 ^^^ rotr x 13 ^^^ rotr x 22

def bigSigma1 (x : Nat) : Nat := rotr x 6 ^^^ rotr x 11 ^^^ rotr x 25

def smallSigma0 (x : Nat) : Nat := rotr x 7 ^^^ rotr x 18 ^^^ (x >>> 3)

def smallSigma1 (x : Nat) : Nat := rotr x 17 ^^^ rotr x 19 ^^^ (x >>> 10)

/-- The 64 round constants of FIPS 180-4 (written in decimal). -/
def K : List Nat :=
  [1116352408, 1899447441, 3049323471, 3921009573, 961987163, 1508970993,
   2453635748, 2870763221, 3624381080, 310598401, 607225278, 1426881987,
   1925078388, 2162078206, 2614888103, 3248222580, 3835390401, 4022224774,
   264347078, 604807628, 770255983, 1249150122, 1555081692, 1996064986,
   2554220882, 2821834349, 2952996808, 3210313671, 3336571891, 3584528711,
   113926993, 338241895, 666307205, 773529912, 1294757372, 1396182291,
   1695183700, 1986661051, 2177026350, 2456956037, 2730485921, 2820302411,
   3259730800, 3345764771, 3516065817, 3600352804, 4094571909, 275423344,
   430227734, 506948616, 659060556, 883997877, 958139571, 1322822218,
   1537002063, 1747873779, 1955562222, 2024104815, 2227730452, 2361852424,
   2428436474, 2756734187, 3204031479, 3329325298]

/-- The eight-word hash state. -/
structure Hash where
  h0 : Nat
  h1 : Nat
  h2 : Nat
  h3 : Nat
  h4 : Nat
  h5 : Nat
  h6 : Nat
  h7 : Nat

/-- The initial hash value of FIPS 180-4 (written in decimal). -/
def initH : Hash :=
  ⟨1779033703, 3144134277, 1013904242, 2773480762,
   1359893119, 2600822924, 528734635, 1541459225⟩

/-- Big-endian 32-bit word at word index `i` of a byte block. -/
def word (block : List Nat) (i : Nat) : Nat :=
  block.getD (4 * i) 0 * 2 ^ 24 + block.getD (4 * i + 1) 0 * 2 ^ 16 +
    block.getD (4 * i + 2) 0 * 2 ^ 8 + block.getD (4 * i + 3) 0

/-- The 64-entry message schedule of one block. -/
def schedule (block : List Nat) : List Nat :=
  let w0 := (List.range 16).map (word block)
  (List.range 48).foldl
    (fun w _ =>
      let n := w.length
      w ++ [wmod (smallSigma1 (w.getD (n - 2) 0) + w.getD (n - 7) 0 +
        smallSigma0 (w.getD (n - 15) 0) + w.getD (n - 16) 0)])
    w0

/-- One round of the compression function. -/
def round (t : Hash) (wk : Nat × Nat) : Hash :=
  let t1 := wmod (t.h7 + bigSigma1 t.h4 + ch t.h4 t.h5 t.h6 + wk.2 + wk.1)
  let t2 := wmod (bigSigma0 t.h0 + maj t.h0 t.h1 t.h2)
  ⟨wmod (t1 + t2), t.h0, t.h1, t.h2, wmod (t.h3 + t1), t.h4, t.h5, t.h6⟩

/-- Compress one 64-byte block into the chaining state. -/
def compress (st : Hash) (block : List Nat) : Hash :=
  let f := ((schedule block).zip K).foldl round st
  ⟨wmod (st.h0 + f.h0), wmod (st.h1 + f.h1), wmod (st.h2 + f.h2),
   wmod (st.h3 + f.h3), wmod (st.h4 + f.h4), wmod (st.h5 + f.h5),
   wmod (st.h6 + f.h6), wmod (st.h7 + f.h7)⟩

/-- The bit length of the message, as eight big-endian bytes. -/
def lengthBytes (n : Nat) : List Nat :=
  [n / 2 ^ 56 % 256, n / 2 ^ 48 % 256, n / 2 ^ 40 % 256, n / 2 ^ 32 % 256,
   n / 2 ^ 24 % 256, n / 2 ^ 16 % 256, n / 2 ^ 8 % 256, n % 256]

/-- MD-style padding: append `0x80`, zero bytes to 56 mod 64, then the
64-bit big-endian bit length. -/
def pad (msg : List Nat) : List Nat :=
  let z := (120 - (msg.length + 1) % 64) % 64
  msg ++ [0x80] ++ List.replicate z 0 ++ lengthBytes (8 * msg.length)

/-- The four big-endian bytes of a 32-bit word. -/
def wordBytes (w : Nat) : List Nat :=
  [w / 2 ^ 24 % 256, w / 2 ^ 16 % 256, w / 2 ^ 8 % 256, w % 256]

/-- SHA-256 digest of a byte sequence, as 32 bytes. -/
def digestBytes (msg : List Nat) : List Nat :=
  let padded := pad msg
  let f := (List.range (padded.length / 64)).foldl
    (fun st i => compress st ((padded.drop (64 * i)).take 64)) initH
  wordBytes f.h0 ++ wordBytes f.h1 ++ wordBytes f.h2 ++ wordBytes f.h3 ++
    wordBytes f.h4 ++ wordBytes f.h5 ++ wordBytes f.h6 ++ wordBytes f.h7

end SHA256

/-- One lowercase hexadecimal digit. -/
def hexChar (n : Nat) : Char :=
  Char.ofNat (if n < 10 then 48 + n else 87 + n)

/-- Lowercase hex encoding of a byte list, as characters. -/
def bytesToHexChars (bs : List Nat) : List Char :=
  bs.flatMap (fun b => [hexChar (b / 16), hexChar (b % 16)])

/-- Python `hashlib.sha256(…).hexdigest()`: the lowercase hex digest string. -/
def sha256Hexdigest (msg : List Nat) : String :=
  String.mk (bytesToHexChars (SHA256.digestBytes msg))

/-- Embeds `hashing._generate_signature` (hashing.py:28-33), the algorithm spec
§4.1 makes authoritative.  `data.pop("signature", None)`; join the `str()`
of the values of the remaining keys in sorted key order; append the
configured secret; SHA-256 the UTF-8 bytes; hex-encode. -/
def generate_signature (secret : String) (data : List (String × PyValue)) :
    String :=
  let rest := data.filter (fun kv => kv.1 ≠ "signature")
  let keys := (rest.map Prod.fst).mergeSort (fun a b => decide (a ≤ b))
  let concatenated :=
    String.join (keys.map (fun k => pyStr (dictGet rest k (.bool false)))) ++ secret
  sha256Hexdigest (strBytes concatenated)

/-- The Signature Verifier contract as the specification states it (§4.1),
for comparison with the code's `verify_signature`: the provided token is
accepted exactly when it equals the token recomputed by the reference
algorithm over the payment's fields (the token itself excluded). -/
def spec_verify (secret : String) (data : List (String × PyValue))
    (providedToken : String) : Bool :=
  providedToken == generate_signature secret data

/-! ### Helper lemmas -/

/-- Hex encoding doubles the length. -/
theorem length_bytesToHexChars (bs : List Nat) :
    (bytesToHexChars bs).length = 2 * bs.length := by
  induction bs with
  | nil => rfl
  | cons b t ih =>
    simp only [bytesToHexChars, List.flatMap_cons] at *
    simp [ih]
    omega

/-- A SHA-256 digest is 32 bytes, whatever the message. -/
theorem length_digestBytes (msg : List Nat) :
    (SHA256.digestBytes msg).length = 32 := by
  simp [SHA256.digestBytes, SHA256.wordBytes]

/-- A SHA-256 hex digest is 64 characters, whatever the message. -/
theorem length_sha256Hexdigest (msg : List Nat) :
    (sha256Hexdigest msg).length = 64 := by
  show (bytesToHexChars (SHA256.digestBytes msg)).length = 64
  rw [length_bytesToHexChars, length_digestBytes]

/-- The recomputed signature is always 64 characters long. -/
theorem length_generate_signature (secret : String)
    (data : List (String × PyValue)) :
    (generate_signature secret data).length = 64 :=
  length_sha256Hexdigest _

/-- Folding list-append over a list starting from `init` is `init`
followed by the concatenation — the shape of the `extend` loop in
`get_payments`. -/
theorem foldl_append_eq_append_join {α β : Type} (f : α → List β) :
    ∀ (l : List α) (init : List β),
      l.foldl (fun acc x => acc ++ f x) init = init ++ (l.map f).flatten := by
  intro l
  induction l with
  | nil => intro init; simp
  | cons x t ih => intro init; simp [ih]

/-- Updating balances leaves a list untouched when no element carries the
target's account id. -/
theorem map_balance_update_of_absent (accounts : List Account)
    (tid : Int) (amt : Rat)
    (h : ∀ a ∈ accounts, a.account_id ≠ tid) :
    accounts.map (fun a =>
        if a.account_id = tid then
          { a with balance := a.balance + amt }
        else a)
      = accounts := by
  induction accounts with
  | nil => rfl
  | cons x t ih =>
    have hx := h x (List.mem_cons_self x t)
    have ht : ∀ a ∈ t, a.account_id ≠ tid :=
      fun a ha => h a (List.mem_cons_of_mem x ha)
    simp [hx, ih ht]

/-! ### The claims -/

/-- C1: the ledger invariant fails on the code.  With user 1 present
(non-admin) and an empty ledger, a syntactically valid payment credits
account 42 with 100 — the `change_balance` transaction commits — and then
`add_payment_to_database` raises (its required `user_id` parameter is not
supplied at the call site, and `Payment` has no such column), so no
Payment row is ever persisted: the balance is credited without a matching
persisted payment record, and the insertion's failure does not leave the
balance unchanged. -/
theorem creditedBalanceWithoutPaymentRecord :
    (process_payment ⟨[⟨1, false⟩], [], []⟩ "t1" 1 42 100 "a").1.payments
      = [] ∧
    (process_payment ⟨[⟨1, false⟩], [], []⟩ "t1" 1 42 100 "a").1.accounts
      = [⟨42, 100, 1⟩] ∧
    (process_payment ⟨[⟨1, false⟩], [], []⟩ "t1" 1 42 100 "a").2 ≠ none := by
  norm_num [process_payment, check_user, check_account, check_payment,
    get_user_by_id, get_account_by_id, get_payment, verify_signature, dictGet,
    paymentDataDict, PyValue.truthy, create_account, change_balance,
    add_payment_to_database, addPaymentParams, addPaymentBodyKwargs,
    paymentModelColumns, processPaymentInsertKwargs]
  decide

/-- C2: the balance adjustment and the payment insertion are not one
atomic unit.  Each DAL call commits in its own transaction: on a payment
of 25 to account 7 (balance 50), the balance commit goes through (final
balance 75) while the insertion raises `TypeError` and commits nothing —
one mutation commits and the other does not. -/
theorem balanceCommitsWithoutInsertCommit :
    process_payment ⟨[⟨2, false⟩], [⟨7, 50, 2⟩], []⟩ "t9" 2 7 25 "tok"
      = (⟨[⟨2, false⟩], [⟨7, 75, 2⟩], []⟩,
         some (.typeError
           "add_payment_to_database() missing 1 required positional argument")) := by
  norm_num [process_payment, check_user, check_account, check_payment,
    get_user_by_id, get_account_by_id, get_payment, verify_signature, dictGet,
    paymentDataDict, PyValue.truthy, create_account, change_balance,
    add_payment_to_database, addPaymentParams, addPaymentBodyKwargs,
    paymentModelColumns, processPaymentInsertKwargs]
  decide

/-- C6 (counterexample): resubmitting an existing `transaction_id` does
not always yield the duplicate-transaction `ConflictError`.  Here the
payment `"t1"` already exists, but the resubmission names a `user_id`
with no user, so `_check_user` fires first and the call fails with the
user-not-found error instead — though still with no mutation. -/
theorem duplicateTransactionNotConflictCounterexample :
    get_payment ⟨[], [], [⟨"t1", 5, 7, "sig"⟩]⟩ "t1"
      = some ⟨"t1", 5, 7, "sig"⟩ ∧
    process_payment ⟨[], [], [⟨"t1", 5, 7, "sig"⟩]⟩ "t1" 1 7 5 "x"
      = (⟨[], [], [⟨"t1", 5, 7, "sig"⟩]⟩,
         some (.valueError "User does not exist")) := by
  decide

/-- C8: `get_payments` returns exactly the concatenation, account by
account, of the payments of all of the user's accounts (the multiset
union, grouped by account), and — being a total function — returns the
empty list rather than failing when the user has no accounts (second
conjunct: a store with no accounts at all). -/
theorem getPaymentsUnionOverAccounts (s : DB) (user : User)
    (users : List User) (payments : List Payment) (u : User) :
    get_payments s user
      = ((get_accounts_by_user_id s user.user_id).map
          (fun a => get_payments_by_account_id s a.account_id)).flatten ∧
    get_payments ⟨users, [], payments⟩ u = [] := by
  constructor
  · unfold get_payments
    simpa using foldl_append_eq_append_join _ _ []
  · rfl

/-- C9: the result of `verify_signature` depends only on the value bound
to `"signature"`: two payment dicts with the same token give the same
result whatever their `transaction_id`, `user_id`, `account_id` and
`amount` (and `verify_signature` does not read the secret at all), and
any non-empty token is accepted (truthy). -/
theorem verifySignatureDependsOnlyOnToken
    (tid : String) (uid aid : Int) (amt : Rat)
    (tid' : String) (uid' aid' : Int) (amt' : Rat)
    (sig : String) (h : sig ≠ "") :
    verify_signature (paymentDataDict tid uid aid amt sig)
      = verify_signature (paymentDataDict tid' uid' aid' amt' sig) ∧
    (verify_signature (paymentDataDict tid uid aid amt sig)).truthy = true := by
  constructor
  · rfl
  · simp [verify_signature, paymentDataDict, dictGet, PyValue.truthy, h]

/-- Witness for C9 at a concrete pair of inputs sharing the token. -/
theorem verifySignatureDependsOnlyOnToken_witness :
    verify_signature (paymentDataDict "t1" 5 8 3 "tok")
      = verify_signature (paymentDataDict "zz" 6 9 4 "tok") ∧
    (verify_signature (paymentDataDict "t1" 5 8 3 "tok")).truthy = true :=
  verifySignatureDependsOnlyOnToken "t1" 5 8 3 "zz" 6 9 4 "tok" (by decide)

/-- C10: `change_balance` sets the target account's balance to its
previous balance plus `amount`, verbatim, and changes nothing else: users
and payments are untouched, and the accounts list is pointwise unchanged
except that rows whose id matches the target get exactly `+ amount` on
the balance while keeping their `account_id` and `user_id`. -/
theorem changeBalanceFrame (s : DB) (account : Account) (amt : Rat) :
    (change_balance s account amt).users = s.users ∧
    (change_balance s account amt).payments = s.payments ∧
    List.Forall₂ (fun a a' : Account =>
        a'.account_id = a.account_id ∧ a'.user_id = a.user_id ∧
          a'.balance
            = a.balance + (if a.account_id = account.account_id then amt else 0))
      s.accounts (change_balance s account amt).accounts := by
  refine ⟨rfl, rfl, ?_⟩
  show List.Forall₂ _ s.accounts (s.accounts.map _)
  rw [List.forall₂_map_right_iff, List.forall₂_same]
  intro a _
  by_cases h : a.account_id = account.account_id
  · simp [h]
  · simp [h]

/-- C3: every invocation of `process_payment` that passes the user,
account, duplicate and signature checks fails at the final insertion —
`add_payment_to_database` is called without the `user_id` argument its
parameter list requires (and `Payment` has no `user_id` column) — so no
Payment record is ever persisted and the call never returns success,
while the final committed state is exactly the state after the
already-committed balance adjustment (and lazy account creation). -/
theorem processPaymentNeverPersists
    (s : DB) (tid : String) (uid aid : Int) (amt : Rat) (sig : String)
    (acctOpt : Option Account)
    (h1 : check_user s uid = none)
    (h2 : check_account s aid uid = .ok acctOpt)
    (h3 : check_payment s tid uid aid amt sig = none) :
    (process_payment s tid uid aid amt sig).2
      = some (.typeError
          "add_payment_to_database() missing 1 required positional argument") ∧
    (process_payment s tid uid aid amt sig).1.payments = s.payments ∧
    (process_payment s tid uid aid amt sig).1
      = change_balance
          (match acctOpt with
            | some _ => s
            | none => (create_account s aid uid).2)
          (match acctOpt with
            | some a => a
            | none => (create_account s aid uid).1) amt := by
  cases acctOpt with
  | some account =>
    refine ⟨?_, ?_, ?_⟩ <;>
      simp +decide [process_payment, h1, h2, h3, add_payment_to_database,
        addPaymentParams, processPaymentInsertKwargs, change_balance,
        create_account]
  | none =>
    refine ⟨?_, ?_, ?_⟩ <;>
      simp +decide [process_payment, h1, h2, h3, add_payment_to_database,
        addPaymentParams, processPaymentInsertKwargs, change_balance,
        create_account]

/-- Witness for C3 at a concrete passing input. -/
theorem processPaymentNeverPersists_witness :
    (process_payment ⟨[⟨3, false⟩], [], []⟩ "t7" 3 9 17 "w").2
      = some (.typeError
          "add_payment_to_database() missing 1 required positional argument") ∧
    (process_payment ⟨[⟨3, false⟩], [], []⟩ "t7" 3 9 17 "w").1.payments
      = ([] : List Payment) ∧
    (process_payment ⟨[⟨3, false⟩], [], []⟩ "t7" 3 9 17 "w").1
      = change_balance (create_account ⟨[⟨3, false⟩], [], []⟩ 9 3).2
          (create_account ⟨[⟨3, false⟩], [], []⟩ 9 3).1 17 :=
  processPaymentNeverPersists ⟨[⟨3, false⟩], [], []⟩ "t7" 3 9 17 "w" none
    (by rfl) (by rfl) (by decide)

/-- C4: `verify_signature` does not decide by recomputing the token; it
accepts any truthy token field.  Tokens `"a"` and `"b"` over the same
payment fields are both accepted, yet neither equals the token the
specified algorithm (`_generate_signature`) recomputes — for any secret —
because a recomputed token is a 64-character hex digest. -/
theorem verifySignatureSkipsRecomputation (secret : String) :
    (verify_signature (paymentDataDict "t1" 1 42 100 "a")).truthy = true ∧
    (verify_signature (paymentDataDict "t1" 1 42 100 "b")).truthy = true ∧
    spec_verify secret (paymentDataDict "t1" 1 42 100 "a") "a" = false ∧
    spec_verify secret (paymentDataDict "t1" 1 42 100 "b") "b" = false := by
  refine ⟨by decide, by decide, ?_, ?_⟩ <;>
  · rw [spec_verify, beq_eq_false_iff_ne]
    intro h
    have hl := length_generate_signature secret (paymentDataDict "t1" 1 42 100 "a")
    have hl' := length_generate_signature secret (paymentDataDict "t1" 1 42 100 "b")
    first
    | (rw [← h] at hl; exact absurd hl (by decide))
    | (rw [← h] at hl'; exact absurd hl' (by decide))

/-- C5: a provided token that cannot equal the recomputed signature (it
is one character long, a recomputed token is 64) is nevertheless
accepted: the payment passes `_check_payment`, the balance of account 42
is mutated from 3 to 103, and the raised error is the insertion
`TypeError`, not the `"Signature is incorrect"` validation error —
mutation without token equality. -/
theorem wrongTokenStillMutates (secret : String) :
    spec_verify secret (paymentDataDict "t2" 1 42 100 "bad") "bad" = false ∧
    (process_payment ⟨[⟨1, false⟩], [⟨42, 3, 1⟩], []⟩ "t2" 1 42 100 "bad").1.accounts
      = [⟨42, 103, 1⟩] ∧
    (process_payment ⟨[⟨1, false⟩], [⟨42, 3, 1⟩], []⟩ "t2" 1 42 100 "bad").2
      ≠ some (.valueError "Signature is incorrect") := by
  refine ⟨?_, ?_, ?_⟩
  · rw [spec_verify, beq_eq_false_iff_ne]
    intro h
    have hl := length_generate_signature secret (paymentDataDict "t2" 1 42 100 "bad")
    rw [← h] at hl
    exact absurd hl (by decide)
  · norm_num [process_payment, check_user, check_account, check_payment,
      get_user_by_id, get_account_by_id, get_payment, verify_signature, dictGet,
      paymentDataDict, PyValue.truthy, create_account, change_balance,
      add_payment_to_database, addPaymentParams, addPaymentBodyKwargs,
      paymentModelColumns, processPaymentInsertKwargs]
    decide
  · norm_num [process_payment, check_user, check_account, check_payment,
      get_user_by_id, get_account_by_id, get_payment, verify_signature, dictGet,
      paymentDataDict, PyValue.truthy, create_account, change_balance,
      add_payment_to_database, addPaymentParams, addPaymentBodyKwargs,
      paymentModelColumns, processPaymentInsertKwargs]
    decide

/-- C6 (amended): when the payer and account checks pass (the user
exists and is not an admin, and the account is absent or owned by that
user), a `process_payment` call whose `transaction_id` already has a
Payment fails with the duplicate-transaction `ConflictError`
(`ValueError "Transaction with this id already exists"`), whatever token
is supplied — the duplicate check precedes the signature check and the
commit — and the state is returned unchanged: no balance and no stored
record is touched. -/
theorem duplicateTransactionRejected
    (s : DB) (tid : String) (uid aid : Int) (amt : Rat) (sig : String)
    (acctOpt : Option Account) (p : Payment)
    (h1 : check_user s uid = none)
    (h2 : check_account s aid uid = .ok acctOpt)
    (h3 : get_payment s tid = some p) :
    process_payment s tid uid aid amt sig
      = (s, some (.valueError "Transaction with this id already exists")) := by
  simp [process_payment, h1, h2, check_payment, h3]

/-- Witness for C6's amended claim at a concrete duplicate
resubmission. -/
theorem duplicateTransactionRejected_witness :
    process_payment ⟨[⟨1, false⟩], [⟨7, 2, 1⟩], [⟨"t1", 2, 7, "s"⟩]⟩
        "t1" 1 7 9 "anything"
      = (⟨[⟨1, false⟩], [⟨7, 2, 1⟩], [⟨"t1", 2, 7, "s"⟩]⟩,
         some (.valueError "Transaction with this id already exists")) :=
  duplicateTransactionRejected ⟨[⟨1, false⟩], [⟨7, 2, 1⟩], [⟨"t1", 2, 7, "s"⟩]⟩
    "t1" 1 7 9 "anything" (some ⟨7, 2, 1⟩) ⟨"t1", 2, 7, "s"⟩
    (by rfl) (by rfl) (by rfl)

/-- C7: a first submission that passes every check and names an absent
`account_id` appends exactly one new account, owned by `user_id`, whose
final balance is `amount` (created with the column default 0, then
credited); and the same submission with a rejected token (here the empty
token, the only kind the code rejects) leaves the state — in particular
the accounts — completely unchanged, because creation happens only after
all validation steps succeed. -/
theorem freshAccountCreatedOnValidPayment
    (s : DB) (tid : String) (uid aid : Int) (amt : Rat) (sig : String)
    (u : User)
    (h1 : get_user_by_id s uid = some u)
    (h2 : u.is_admin = false)
    (h3 : get_account_by_id s aid = none)
    (h4 : get_payment s tid = none)
    (h5 : sig ≠ "") :
    (process_payment s tid uid aid amt sig).1.accounts
      = s.accounts ++ [{ account_id := aid, balance := amt, user_id := uid }] ∧
    (process_payment s tid uid aid amt "").1 = s ∧
    (process_payment s tid uid aid amt "").2
      = some (.valueError "Signature is incorrect") := by
  have hall : ∀ a ∈ s.accounts, a.account_id ≠ aid := by
    intro a ha
    have h3' : s.accounts.find? (fun a => a.account_id == aid) = none := h3
    simpa using List.find?_eq_none.mp h3' a ha
  refine ⟨?_, ?_, ?_⟩
  · simp only [process_payment, check_user, h1, h2, check_account, h3,
      check_payment, h4, verify_signature, paymentDataDict, dictGet,
      PyValue.truthy, create_account, change_balance,
      add_payment_to_database, addPaymentParams, processPaymentInsertKwargs,
      h5]
    simp +decide [List.map_append, h5]
    exact map_balance_update_of_absent s.accounts aid amt hall
  · simp [process_payment, check_user, h1, h2, check_account, h3,
      check_payment, h4, verify_signature, paymentDataDict, dictGet,
      PyValue.truthy]
  · simp [process_payment, check_user, h1, h2, check_account, h3,
      check_payment, h4, verify_signature, paymentDataDict, dictGet,
      PyValue.truthy]

/-- Witness for C7 at a concrete valid first submission. -/
theorem freshAccountCreatedOnValidPayment_witness :
    (process_payment ⟨[⟨1, false⟩], [], []⟩ "t1" 1 42 100 "ok").1.accounts
      = [{ account_id := 42, balance := 100, user_id := 1 }] ∧
    (process_payment ⟨[⟨1, false⟩], [], []⟩ "t1" 1 42 100 "").1
      = ⟨[⟨1, false⟩], [], []⟩ ∧
    (process_payment ⟨[⟨1, false⟩], [], []⟩ "t1" 1 42 100 "").2
      = some (.valueError "Signature is incorrect") :=
  freshAccountCreatedOnValidPayment ⟨[⟨1, false⟩], [], []⟩ "t1" 1 42 100 "ok"
    ⟨1, false⟩ (by rfl) (by rfl) (by rfl) (by rfl) (by decide)

end DimaTech
